import Mathlib

/-!
A shallow embedding of `src/result.hpp`, a move-only result type for C++.

The C++ class `Result<T,E>` stores a `std::variant` over the two tag
wrappers `details::Ok<T>` and `details::Err<E>`; it is embedded here as a
two-constructor inductive type. Member functions are embedded as pure Lean
functions on that inductive type, translated case by case from the bodies
in `src/result.hpp`:

* a `throw std::logic_error{msg}` is modelled as `Except.error msg`, so the
  fatal channel of `unwrap`, `unwrap_err`, `expect`, `expect_err` is
  `Except String _`, structurally distinct from the domain failure `E`;
* `std::optional<X>` becomes `Option X`;
* move semantics of payload extraction is value passing in the pure model;
  the separate stateful model `MResult` at the end of the file tracks
  moved-from payload cells explicitly, for the frame property of the
  relational operators (which read payloads through `get_t_`/`get_e_`
  references and never move them);
* the compile-time constraint of `map_err` (its deduced default template
  argument `F = std::invoke_result_t<Fn, E>` and its `static_assert` on
  `details::is_op_v`) is modelled over a small universe of mutually
  unrelated C++ types, where invocability is exact signature match.
-/

namespace CppResult

namespace details

/-- `details::Ok<T>`: staging wrapper holding one success payload `t_`. -/
structure Ok (T : Type) where
  t_ : T

/-- `details::Err<E>`: staging wrapper holding one failure payload `e_`. -/
structure Err (E : Type) where
  e_ : E

end details

/-- The free helper `Ok(t)` of `result.hpp` (line 67): builds a
`details::Ok` over the decayed payload type. -/
def Ok {T : Type} (t : T) : details.Ok T := ⟨t⟩

/-- The free helper `Err(e)` of `result.hpp` (line 74). -/
def Err {E : Type} (e : E) : details.Err E := ⟨e⟩

/-- `Result<T,E>` (line 82): `std::variant<Ok<T>, Err<E>>`, exactly one
alternative active. -/
inductive Result (T E : Type) where
  | ok (t : T)
  | err (e : E)

namespace Result

variable {T E U F B : Type}

/-- The converting constructor `Result(details::Ok<U>)` (line 92): moves the
wrapped payload into the `Ok` alternative. -/
def ofOk (o : details.Ok T) : Result T E := .ok o.t_

/-- The converting constructor `Result(details::Err<F>)` (line 95). -/
def ofErr (f : details.Err E) : Result T E := .err f.e_

/-- `is_ok()` (line 109): `holds_alternative<OkT>(variant_)`. -/
def is_ok : Result T E → Bool
  | .ok _ => true
  | .err _ => false

/-- `is_err()` (line 110): `holds_alternative<ErrE>(variant_)`. -/
def is_err : Result T E → Bool
  | .ok _ => false
  | .err _ => true

/-- `ok()` (line 112): optional extraction, named `ok_opt` here because the
inductive already uses `ok` for the variant constructor. -/
def ok_opt : Result T E → Option T
  | .ok t => some t
  | .err _ => none

/-- `err()` (line 120), named `err_opt` for the same reason. -/
def err_opt : Result T E → Option E
  | .ok _ => none
  | .err e => some e

/-- `unwrap()` (line 128): the moved payload if `Ok`, otherwise
`throw std::logic_error{ "Result::unwrap panicked" }`. -/
def unwrap : Result T E → Except String T
  | .ok t => .ok t
  | .err _ => .error "Result::unwrap panicked"

/-- `unwrap_err()` (line 136); the message typo `unwrawp` is in the source. -/
def unwrap_err : Result T E → Except String E
  | .err e => .ok e
  | .ok _ => .error "Result::unwrawp_err panicked"

/-- `unwrap_or(default_value)` (line 144); the `static_assert` there forces
the default's decayed type to coincide with `T`, so the model takes `d : T`. -/
def unwrap_or : Result T E → T → T
  | .ok t, _ => t
  | .err _, d => d

/-- `unwrap_or_else(fn)` (line 155), `fn : E -> T`. -/
def unwrap_or_else : Result T E → (E → T) → T
  | .ok t, _ => t
  | .err e, fn => fn e

/-- `unwrap_or_default()` (line 166): `T()` becomes `default`. -/
def unwrap_or_default [Inhabited T] : Result T E → T
  | .ok t => t
  | .err _ => default

/-- `expect(msg)` (line 174): like `unwrap` but throwing the given message. -/
def expect : Result T E → String → Except String T
  | .ok t, _ => .ok t
  | .err _, msg => .error msg

/-- `expect_err(msg)` (line 182). -/
def expect_err : Result T E → String → Except String E
  | .err e, _ => .ok e
  | .ok _, msg => .error msg

/-- `map(fn)` (line 190): `Ok(fn(move_t_()))` if `Ok`, else `move_err_()`
re-wrapped into `Result<U,E>`. -/
def map : Result T E → (T → U) → Result U E
  | .ok t, fn => .ok (fn t)
  | .err e, _ => .err e

/-- `map_err(fn)` (line 202), value-level behaviour: `move_ok_()` re-wrapped
if `Ok`, else `Err(fn(move_e_()))`. Its compile-time constraint is modelled
separately below by `map_err_admissible`. -/
def map_err : Result T E → (E → F) → Result T F
  | .ok t, _ => .ok t
  | .err e, fn => .err (fn e)

/-- `and_(res)` (line 214). -/
def and_ : Result T E → Result U E → Result U E
  | .ok _, res => res
  | .err e, _ => .err e

/-- `and_then(fn)` (line 228): `fn(move_t_())` if `Ok`, else `move_err_()`
re-wrapped into the returned result type. -/
def and_then : Result T E → (T → Result U E) → Result U E
  | .ok t, fn => fn t
  | .err e, _ => .err e

/-- `or_(res)` (line 244). -/
def or_ : Result T E → Result T F → Result T F
  | .ok t, _ => .ok t
  | .err _, res => res

/-- `or_else(fn)` (line 258): `move_ok_()` re-wrapped if `Ok`, else
`fn(move_e_())`. -/
def or_else : Result T E → (E → Result T F) → Result T F
  | .ok t, _ => .ok t
  | .err e, fn => fn e

/-- `rel_op_(other, op)` (line 281): both `Ok` compares the `T` payloads,
both `Err` compares the `E` payloads, mixed variants yield `is_ok()` of the
left operand. The single transparent functor `op` (for example
`std::less<>`) is passed as its two instantiations `opT` and `opE`. -/
def rel_op_ : Result T E → Result T E → (T → T → Bool) → (E → E → Bool) → Bool
  | .ok t1, .ok t2, opT, _ => opT t1 t2
  | .err e1, .err e2, _, opE => opE e1 e2
  | a, _, _, _ => a.is_ok

/-- `operator<` (line 274): `rel_op_(other, std::less<>())`. -/
def lt (a b : Result T E) (opT : T → T → Bool) (opE : E → E → Bool) : Bool :=
  rel_op_ a b opT opE

/-- `operator>` (line 275): `rel_op_(other, std::greater<>())`. -/
def gt (a b : Result T E) (opT : T → T → Bool) (opE : E → E → Bool) : Bool :=
  rel_op_ a b opT opE

/-- `operator<=` (line 276): `rel_op_(other, std::less_equal<>())`. -/
def le (a b : Result T E) (opT : T → T → Bool) (opE : E → E → Bool) : Bool :=
  rel_op_ a b opT opE

/-- `operator>=` (line 277): `rel_op_(other, std::greater_equal<>())`. -/
def ge (a b : Result T E) (opT : T → T → Bool) (opE : E → E → Bool) : Bool :=
  rel_op_ a b opT opE

/-- `operator==` (line 278): `rel_op_(other, std::equal_to<>())`. -/
def eq (a b : Result T E) (opT : T → T → Bool) (opE : E → E → Bool) : Bool :=
  rel_op_ a b opT opE

end Result

/-- The `TRY(...)` statement-expression (line 308) as seen from the enclosing
function, modelled in the `Except E` error monad of a function whose failure
type is `E`: `if (res.is_err()) return res.unwrap_err();` is the
`Except.error` exit carrying the failure payload unchanged, and the trailing
`res.unwrap()` is the value of the whole expression on success. -/
def TRY {T E : Type} : Result T E → Except E T
  | .err e => .error e
  | .ok t => .ok t

/-- An enclosing function whose body is `TRY res` followed by the rest of
the function `k` (which receives the moved success payload). The
`Except.error` branch is the non-local exit: `k` is not reached. -/
def tryBind {T E B : Type} (res : Result T E) (k : T → Except E B) : Except E B :=
  match TRY res with
  | .error e => .error e
  | .ok t => k t

/-- Whether an embedded member-function call took the `throw` path. -/
def panicked {A : Type} : Except String A → Bool
  | .error _ => true
  | .ok _ => false

/-- Replace the thrown message, keeping a normal return unchanged; used to
state that `expect` differs from `unwrap` only in the carried message. -/
def withMsg {A : Type} (msg : String) : Except String A → Except String A
  | .error _ => .error msg
  | .ok a => .ok a

/-- A small universe of mutually unrelated C++ types (no implicit
conversions hold between distinct members), enough to evaluate the
compile-time constraints of `map_err`. -/
inductive CTy where
  | cInt
  | cString
  | cSizeT
  deriving DecidableEq, BEq

/-- A concrete callable with one parameter type and one return type. -/
structure CFn where
  dom : CTy
  cod : CTy
  deriving DecidableEq, BEq

/-- `std::is_invocable_r_v<R, Fn, A>` over this universe: since no implicit
conversions relate distinct members, it is exact signature match. -/
def is_invocable_r (R : CTy) (fn : CFn) (A : CTy) : Bool :=
  fn.dom == A && fn.cod == R

/-- `details::is_op_v<R, Fn, A>` (line 18 of `result.hpp`). -/
def is_op_v (R : CTy) (fn : CFn) (A : CTy) : Bool :=
  is_invocable_r R fn A

/-- `std::invoke_result_t<Fn, A>`; `none` is a substitution failure. -/
def invoke_result (fn : CFn) (A : CTy) : Option CTy :=
  if fn.dom == A then some fn.cod else none

/-- Whether `Result<T,E>::map_err(fn)` is well-formed as written in the
source (lines 202 to 206): the default template argument deduces
`F = std::invoke_result_t<Fn, E>`, and then the body's
`static_assert(details::is_op_v<F, Fn, T>)` must hold — the assert as
written checks invocability on the success type `T`. -/
def map_err_admissible (T E : CTy) (fn : CFn) : Bool :=
  match invoke_result fn E with
  | none => false
  | some F => is_op_v F fn T

/-- Modelled from the spec: the constraint `map_err` documents for its
argument — a function of signature `E -> F`, that is, invocable on the
failure type `E` (the `static_assert` message itself reads "Function is not
of signature Fn(E) -> F"). -/
def map_err_documented (E : CTy) (fn : CFn) : Bool :=
  match invoke_result fn E with
  | none => false
  | some _ => true

/-- A payload cell of a live C++ object: still live, or moved-from
(valid but unspecified, must not be reused). -/
inductive MVal (A : Type) where
  | live (a : A)
  | movedFrom

/-- Object state of a `Result<T,E>` lvalue: the active variant together
with the liveness of its payload cell. -/
inductive MResult (T E : Type) where
  | mok (t : MVal T)
  | merr (e : MVal E)

namespace MResult

variable {T E : Type}

/-- `is_ok()` only inspects the variant tag, regardless of liveness. -/
def is_ok : MResult T E → Bool
  | .mok _ => true
  | .merr _ => false

/-- `is_err()`. -/
def is_err : MResult T E → Bool
  | .mok _ => false
  | .merr _ => true

/-- `get_t_()` (line 298): reading the payload through `T&`; the object
state is unchanged. Reading a moved-from cell yields no specified value. -/
def get_t : MResult T E → Option T × MResult T E
  | .mok (.live t) => (some t, .mok (.live t))
  | s => (none, s)

/-- `get_e_()` (line 299). -/
def get_e : MResult T E → Option E × MResult T E
  | .merr (.live e) => (some e, .merr (.live e))
  | s => (none, s)

/-- `move_t_()` (line 301): moves the payload out, leaving the cell
moved-from. Used by the extraction family, never by `rel_op_`. -/
def move_t : MResult T E → Option T × MResult T E
  | .mok (.live t) => (some t, .mok .movedFrom)
  | s => (none, s)

/-- `move_e_()` (line 302). -/
def move_e : MResult T E → Option E × MResult T E
  | .merr (.live e) => (some e, .merr .movedFrom)
  | s => (none, s)

/-- `rel_op_` (line 281) over object states: payload access goes through
`get_t_`/`get_e_` only, and the state of both operands is threaded
through. -/
def rel_op (a b : MResult T E) (opT : T → T → Bool) (opE : E → E → Bool) :
    Option Bool × MResult T E × MResult T E :=
  if a.is_ok && b.is_ok then
    match a.get_t, b.get_t with
    | (some x, a2), (some y, b2) => (some (opT x y), a2, b2)
    | (_, a2), (_, b2) => (none, a2, b2)
  else if a.is_err && b.is_err then
    match a.get_e, b.get_e with
    | (some x, a2), (some y, b2) => (some (opE x y), a2, b2)
    | (_, a2), (_, b2) => (none, a2, b2)
  else
    (some a.is_ok, a, b)

/-- One relational-operator call viewed as a state transformer on the pair
of operand objects, discarding the boolean. -/
def cmp_step (opT : T → T → Bool) (opE : E → E → Bool)
    (p : MResult T E × MResult T E) : MResult T E × MResult T E :=
  (rel_op p.1 p.2 opT opE).2

end MResult

/-- Claim C1: a `Result<T,E>` built from `Ok(t)` has `is_ok() == true`,
`is_err() == false`, and `unwrap()` returns (without throwing) a value equal
to `t`; one built from `Err(e)` has `is_err() == true` and `unwrap_err()`
returns a value equal to `e`. -/
theorem ok_err_construction_observers {T E : Type} (t : T) (e : E) :
    (Result.ofOk (E := E) (Ok t)).is_ok = true
    ∧ (Result.ofOk (E := E) (Ok t)).is_err = false
    ∧ (Result.ofOk (E := E) (Ok t)).unwrap = Except.ok t
    ∧ (Result.ofErr (T := T) (Err e)).is_err = true
    ∧ (Result.ofErr (T := T) (Err e)).unwrap_err = Except.ok e :=
  ⟨rfl, rfl, rfl, rfl, rfl⟩

/-- Claim C2: each of the five relational operators applies its comparator
to the two `T` payloads when both operands are `Ok`, to the two `E`
payloads when both are `Err`, and returns `is_ok()` of the left operand
when the variants differ (so `Ok` on the left against `Err` gives `true`,
and `Err` on the left against `Ok` gives `false`, for every operator).
`opT` and `opE` stand for the two instantiations of the operator's
transparent functor (for `lt`, `std::less<>` on `T` and on `E`). -/
theorem rel_ops_semantics {T E : Type} (opT : T → T → Bool) (opE : E → E → Bool)
    (t1 t2 : T) (e1 e2 : E) :
    (Result.lt (.ok t1) (.ok t2) opT opE = opT t1 t2
      ∧ Result.lt (.err e1) (.err e2) opT opE = opE e1 e2
      ∧ Result.lt (E := E) (.ok t1) (.err e2) opT opE = true
      ∧ Result.lt (E := E) (.err e1) (.ok t2) opT opE = false)
    ∧ (Result.gt (.ok t1) (.ok t2) opT opE = opT t1 t2
      ∧ Result.gt (.err e1) (.err e2) opT opE = opE e1 e2
      ∧ Result.gt (E := E) (.ok t1) (.err e2) opT opE = true
      ∧ Result.gt (E := E) (.err e1) (.ok t2) opT opE = false)
    ∧ (Result.le (.ok t1) (.ok t2) opT opE = opT t1 t2
      ∧ Result.le (.err e1) (.err e2) opT opE = opE e1 e2
      ∧ Result.le (E := E) (.ok t1) (.err e2) opT opE = true
      ∧ Result.le (E := E) (.err e1) (.ok t2) opT opE = false)
    ∧ (Result.ge (.ok t1) (.ok t2) opT opE = opT t1 t2
      ∧ Result.ge (.err e1) (.err e2) opT opE = opE e1 e2
      ∧ Result.ge (E := E) (.ok t1) (.err e2) opT opE = true
      ∧ Result.ge (E := E) (.err e1) (.ok t2) opT opE = false)
    ∧ (Result.eq (.ok t1) (.ok t2) opT opE = opT t1 t2
      ∧ Result.eq (.err e1) (.err e2) opT opE = opE e1 e2
      ∧ Result.eq (E := E) (.ok t1) (.err e2) opT opE = true
      ∧ Result.eq (E := E) (.err e1) (.ok t2) opT opE = false) :=
  ⟨⟨rfl, rfl, rfl, rfl⟩, ⟨rfl, rfl, rfl, rfl⟩, ⟨rfl, rfl, rfl, rfl⟩,
    ⟨rfl, rfl, rfl, rfl⟩, ⟨rfl, rfl, rfl, rfl⟩⟩

/-- Claim C3: inside an enclosing function modelled in the `Except E`
monad, `TRY` on a `Failure` performs a non-local exit carrying exactly the
failure payload, and the rest of the function `k` never runs (the outcome
is the same for every `k`); on a `Success` the `TRY` expression evaluates
to the moved success payload and execution continues with it. -/
theorem try_propagation {T E B : Type} (e : E) (t : T) (k k2 : T → Except E B) :
    tryBind (Result.err e) k = Except.error e
    ∧ tryBind (Result.err e) k = tryBind (Result.err e) k2
    ∧ tryBind (Result.ok t) k = k t
    ∧ TRY (E := E) (Result.ok t) = Except.ok t :=
  ⟨rfl, rfl, rfl, rfl⟩

/-- Claim C4 (code bug): the constraint `map_err` actually enforces is not
the documented "accepts exactly the functions of signature `E -> F`". At
`T = int`, `E = std::string` and `fn : std::string -> std::size_t`, the
documented constraint accepts `fn`, but the source's
`static_assert(details::is_op_v<F, Fn, T>)` (line 205) tests invocability
on the success type `T` and rejects it. -/
theorem map_err_constraint_mismatch :
    map_err_documented CTy.cString ⟨CTy.cString, CTy.cSizeT⟩ = true
    ∧ map_err_admissible CTy.cInt CTy.cString ⟨CTy.cString, CTy.cSizeT⟩ = false :=
  by decide

/-- Claim C5: `map` on a `Failure` never invokes `fn` (the outcome is the
same for every `fn`) and returns a `Result<U,E>` holding the original
failure payload; on a `Success` it returns `Ok(fn t)` with the moved
payload. -/
theorem map_semantics {T E U : Type} (e : E) (t : T) (f g : T → U) :
    Result.map (.err e) f = (.err e : Result U E)
    ∧ Result.map (.err e) f = Result.map (.err e) g
    ∧ Result.map (.ok t) f = (.ok (f t) : Result U E) :=
  ⟨rfl, rfl, rfl⟩

/-- Claim C6: `and_then` on a `Failure` never invokes `fn` (same outcome
for every `fn`) and returns the original failure payload re-typed as
`Result<U,E>`; dually `or_else` on a `Success` never invokes `fn` and
re-wraps the success payload; on the non-short-circuit side each returns
`fn` applied to the moved payload directly. -/
theorem and_then_or_else_short_circuit {T E U F : Type} (e : E) (t : T)
    (f g : T → Result U E) (p q : E → Result T F) :
    Result.and_then (.err e) f = (.err e : Result U E)
    ∧ Result.and_then (.err e) f = Result.and_then (.err e) g
    ∧ Result.and_then (.ok t) f = f t
    ∧ Result.or_else (.ok t) p = (.ok t : Result T F)
    ∧ Result.or_else (.ok t) p = Result.or_else (.ok t) q
    ∧ Result.or_else (.err e) p = p e :=
  ⟨rfl, rfl, rfl, rfl, rfl, rfl⟩

/-- Claim C7: the round trip `r.map(f).map_err(g)` yields `Ok (f t)` when
`r` holds `Success t` and `Err (g e)` when `r` holds `Failure e`. -/
theorem map_map_err_round_trip {T E U F : Type} (t : T) (e : E)
    (f : T → U) (g : E → F) :
    (Result.map (.ok t) f).map_err g = (.ok (f t) : Result U F)
    ∧ (Result.map (.err e) f).map_err g = (.err (g e) : Result U F) :=
  ⟨rfl, rfl⟩

/-- Claim C8: `unwrap()` throws exactly when the instance holds `Failure`,
`unwrap_err()` throws exactly when it holds `Success`, and
`expect`/`expect_err` behave identically to `unwrap`/`unwrap_err` except
that the thrown failure carries the caller-supplied message. -/
theorem unwrap_expect_panic_iff {T E : Type} (r : Result T E) (msg : String) :
    panicked r.unwrap = r.is_err
    ∧ panicked r.unwrap_err = r.is_ok
    ∧ r.expect msg = withMsg msg r.unwrap
    ∧ r.expect_err msg = withMsg msg r.unwrap_err := by
  cases r <;> exact ⟨rfl, rfl, rfl, rfl⟩

/-- Claim C9: `unwrap_or(d)` returns the held payload on `Success` and
exactly `d` on `Failure`; it is total (never throws) and takes no
failure-side function to invoke. -/
theorem unwrap_or_semantics {T E : Type} (t : T) (e : E) (d : T) :
    Result.unwrap_or (E := E) (.ok t) d = t
    ∧ Result.unwrap_or (E := E) (.err e) d = d :=
  ⟨rfl, rfl⟩

/-- Claim C10: every relational operator is read-only on both operands: on
live operands of every variant combination it reads the payloads through
`get_t_`/`get_e_` only, produces a defined boolean, and leaves both object
states exactly as they were — hence iterating comparisons any number of
times leaves both operands live and unchanged. -/
theorem rel_op_frame {T E : Type} (opT : T → T → Bool) (opE : E → E → Bool)
    (t1 t2 : T) (e1 e2 : E) :
    MResult.rel_op (.mok (.live t1)) (.mok (.live t2)) opT opE
        = (some (opT t1 t2), (.mok (.live t1) : MResult T E), .mok (.live t2))
    ∧ MResult.rel_op (.merr (.live e1)) (.merr (.live e2)) opT opE
        = (some (opE e1 e2), (.merr (.live e1) : MResult T E), .merr (.live e2))
    ∧ MResult.rel_op (.mok (.live t1)) (.merr (.live e2)) opT opE
        = (some true, (.mok (.live t1) : MResult T E), .merr (.live e2))
    ∧ MResult.rel_op (.merr (.live e1)) (.mok (.live t2)) opT opE
        = (some false, (.merr (.live e1) : MResult T E), .mok (.live t2))
    ∧ (∀ n : Nat,
        (MResult.cmp_step opT opE)^[n]
            ((.mok (.live t1) : MResult T E), .mok (.live t2))
          = (.mok (.live t1), .mok (.live t2))) := by
  refine ⟨rfl, rfl, rfl, rfl, fun n => Function.iterate_fixed rfl n⟩

end CppResult
